import Mathlib

/-!
Shallow embedding of the upload gateway in src/frontend/index.js of the
fight-judge repository: the validation constants, the handleFile function,
the drop and change event listeners, and the change-button handler, together
with a session-state model of the mutable DOM pieces they touch
(videoPlayer.src, fileName.textContent, fileSize.textContent, the
hidden classes on uploadContainer and videoPreview, the alert calls, and
the object URLs created by URL.createObjectURL).

Browser string primitives are modelled over the character list of the
string, since the claims only involve ASCII data: strStartsWith models
String.prototype.startsWith, strToLower models String.prototype.toLowerCase
on ASCII, and extMatch models testing the regular expression
dot-(mp4|mov|avi)-end with the i flag.
-/

/-- ASCII lowering of one character, as JavaScript toLowerCase acts on
ASCII letters. -/
def asciiLower (c : Char) : Char :=
  if 65 ≤ c.toNat ∧ c.toNat ≤ 90 then Char.ofNat (c.toNat + 32) else c

/-- Model of String.prototype.toLowerCase restricted to ASCII input. -/
def strToLower (s : String) : String := ⟨s.data.map asciiLower⟩

/-- Model of String.prototype.endsWith. -/
def strEndsWith (s post : String) : Bool := List.isSuffixOf post.data s.data

/-- Model of String.prototype.startsWith. -/
def strStartsWith (s pre : String) : Bool := List.isPrefixOf pre.data s.data

/-- MAX_FILE_SIZE from src/frontend/index.js line 11: 500 * 1024 * 1024 bytes. -/
def MAX_FILE_SIZE : Nat := 500 * 1024 * 1024

/-- ALLOWED_TYPES from src/frontend/index.js line 12. The constant is
declared in the source but never read by handleFile. -/
def ALLOWED_TYPES : List String := ["video/mp4", "video/quicktime", "video/x-msvideo"]

/-- An upload candidate: the fields of a browser File object that
handleFile reads (name, declared media type, byte size). -/
structure File where
  name : String
  type : String
  size : Nat
deriving DecidableEq

/-- The test file.name.match against the pattern dot-(mp4|mov|avi)-end with
the i flag: the name, case-insensitively, ends in .mp4, .mov or .avi. -/
def extMatch (name : String) : Bool :=
  let l := strToLower name
  strEndsWith l ".mp4" || strEndsWith l ".mov" || strEndsWith l ".avi"

/-- Rejection reasons of the two alert branches in handleFile. -/
inductive RejectReason
  | InvalidType
  | TooLarge
deriving DecidableEq

/-- Outcome of the validation part of handleFile. -/
inductive ValidationResult
  | Accepted
  | Rejected (r : RejectReason)
deriving DecidableEq

/-- The validation logic of handleFile (src/frontend/index.js lines 56 to 70):
reject InvalidType when the declared type does not start with video/ and the
name does not match the extension pattern; otherwise reject TooLarge when the
size exceeds MAX_FILE_SIZE; otherwise accept. -/
def validate (f : File) : ValidationResult :=
  if !(strStartsWith f.type "video/") && !(extMatch f.name) then
    .Rejected .InvalidType
  else if f.size > MAX_FILE_SIZE then
    .Rejected .TooLarge
  else
    .Accepted

/-- The hundredths value produced by toFixed(2) applied to
size / (1024 * 1024). Division of an integer by 2 to the 20 is exact in
binary floating point, and toFixed picks the integer n with n / 100 closest
to the value, the larger n on a tie, which for nonnegative values is
floor of (value * 100 + 1 / 2). -/
def sizeHundredths (bytes : Nat) : Nat :=
  (200 * bytes + 1048576) / 2097152

/-- Two-digit rendering of the fractional part. -/
def pad2 (n : Nat) : String :=
  if n < 10 then "0" ++ toString n else toString n

/-- The string (file.size / (1024 * 1024)).toFixed(2) from
src/frontend/index.js line 76. -/
def toFixed2MB (bytes : Nat) : String :=
  let h := sizeHundredths bytes
  toString (h / 100) ++ "." ++ pad2 (h % 100)

/-- The display metadata the preview branch of handleFile writes:
fileName.textContent and fileSize.textContent. -/
structure DisplayMetadata where
  name : String
  size : String
deriving DecidableEq

/-- The describe operation: the two template strings of
src/frontend/index.js lines 75 and 76. -/
def describe (f : File) : DisplayMetadata :=
  ⟨"File: " ++ f.name, "Size: " ++ toFixed2MB f.size ++ " MB"⟩

/-- The session state the listeners mutate. Object URLs are modelled as
natural-number tokens: URL.createObjectURL hands out the token nextUrl and
bumps the counter, and a token stays in allocatedUrls until a matching
URL.revokeObjectURL call would remove it (the source contains no such
call). playerSrc none models the empty string assigned to videoPlayer.src.
alerts collects the alert messages shown, oldest first. -/
structure SessionState where
  nextUrl : Nat
  allocatedUrls : List Nat
  playerSrc : Option Nat
  fileNameText : String
  fileSizeText : String
  uploadHidden : Bool
  previewHidden : Bool
  alerts : List String
deriving DecidableEq

/-- The page state after the script loads: nothing staged, upload container
visible, preview hidden. -/
def initialState : SessionState :=
  { nextUrl := 0, allocatedUrls := [], playerSrc := none,
    fileNameText := "", fileSizeText := "",
    uploadHidden := false, previewHidden := true, alerts := [] }

/-- The two textContent assignments of src/frontend/index.js lines 75 and 76
as a state update. -/
def setDisplay (st : SessionState) (f : File) : SessionState :=
  { st with fileNameText := (describe f).name, fileSizeText := (describe f).size }

/-- handleFile from src/frontend/index.js lines 56 to 80 as a state
transition: on a type failure or a size failure it alerts and returns
without touching anything else; otherwise it creates an object URL, assigns
it to videoPlayer.src, writes the two textContent strings, hides the upload
container and shows the preview. -/
def handleFile (st : SessionState) (f : File) : SessionState :=
  if !(strStartsWith f.type "video/") && !(extMatch f.name) then
    { st with alerts := st.alerts ++ ["Please upload a valid video file (MP4, MOV, or AVI)"] }
  else if f.size > MAX_FILE_SIZE then
    { st with alerts := st.alerts ++ ["File size must be less than 500MB"] }
  else
    { st with
      nextUrl := st.nextUrl + 1,
      allocatedUrls := st.allocatedUrls ++ [st.nextUrl],
      playerSrc := some st.nextUrl,
      fileNameText := (describe f).name,
      fileSizeText := (describe f).size,
      uploadHidden := true,
      previewHidden := false }

/-- The drop listener (src/frontend/index.js lines 36 to 46), restricted to
the candidate handling: when the dropped file list is nonempty, handleFile
runs on its first element, otherwise nothing happens. The border styling
toggles of the listener touch only drag-feedback CSS classes, outside the
session state. -/
def dropListener (st : SessionState) (files : List File) : SessionState :=
  match files with
  | [] => st
  | f :: _ => handleFile st f

/-- The change listener on the file input (src/frontend/index.js lines 49
to 53): when the selected file list is nonempty, handleFile runs on its
first element, otherwise nothing happens. -/
def changeListener (st : SessionState) (files : List File) : SessionState :=
  match files with
  | [] => st
  | f :: _ => handleFile st f

/-- The change-button click listener (src/frontend/index.js lines 83 to 88):
clears videoPlayer.src and the input value, shows the upload container,
hides the preview. No URL.revokeObjectURL call appears. -/
def changeBtnClick (st : SessionState) : SessionState :=
  { st with playerSrc := none, uploadHidden := false, previewHidden := true }

/-- Helper: any candidate that passes the disjunctive type check of
handleFile and is within the size limit is accepted. -/
theorem validate_accepted_of_checks (f : File)
    (ht : (strStartsWith f.type "video/" || extMatch f.name) = true)
    (hs : f.size ≤ MAX_FILE_SIZE) :
    validate f = .Accepted := by
  unfold validate
  have h1 : (!(strStartsWith f.type "video/") && !(extMatch f.name)) = false := by
    rw [← Bool.not_or, ht]
    rfl
  rw [h1]
  simp [Nat.not_lt.mpr hs]

/-- Claim C1, counterexample: the candidate fight.mkv with declared type
video/x-matroska and size 1000000 is not rejected with InvalidType. -/
theorem fight_mkv_not_invalid_type :
    validate ⟨"fight.mkv", "video/x-matroska", 1000000⟩ ≠ .Rejected .InvalidType := by
  decide

/-- Claim C1, amended: handleFile never consults ALLOWED_TYPES; any declared
type starting with video/ passes the type check, so fight.mkv with type
video/x-matroska and size 1000000 is Accepted, and in general a candidate
whose type starts with video/ and whose size is within the limit is
Accepted. -/
theorem validate_video_prefix_accepted (f : File)
    (ht : strStartsWith f.type "video/" = true) (hs : f.size ≤ MAX_FILE_SIZE) :
    validate f = .Accepted := by
  apply validate_accepted_of_checks f _ hs
  rw [ht]
  rfl

/-- Witness for validate_video_prefix_accepted at the candidate of C1. -/
theorem validate_video_prefix_accepted_w :
    strStartsWith "video/x-matroska" "video/" = true ∧
    1000000 ≤ MAX_FILE_SIZE ∧
    validate ⟨"fight.mkv", "video/x-matroska", 1000000⟩ = .Accepted :=
  ⟨by decide, by decide,
    validate_video_prefix_accepted ⟨"fight.mkv", "video/x-matroska", 1000000⟩
      (by decide) (by decide)⟩

/-- Claim C2, counterexample: an oversized candidate that also fails the
type check is rejected with InvalidType, not TooLarge, so size alone does
not determine the rejection reason. -/
theorem oversized_nonvideo_not_too_large :
    MAX_FILE_SIZE < 524288001 ∧
    validate ⟨"notes.txt", "text/plain", 524288001⟩ ≠ .Rejected .TooLarge := by
  constructor
  · decide
  · decide

/-- Claim C2, amended: a candidate that passes the type check (type starts
with video/ or the name matches an allowed extension) and whose size
exceeds MAX_FILE_SIZE is rejected with TooLarge. -/
theorem validate_too_large_after_type_pass (f : File)
    (ht : (strStartsWith f.type "video/" || extMatch f.name) = true)
    (hs : f.size > MAX_FILE_SIZE) :
    validate f = .Rejected .TooLarge := by
  unfold validate
  have h1 : (!(strStartsWith f.type "video/") && !(extMatch f.name)) = false := by
    rw [← Bool.not_or, ht]
    rfl
  rw [h1]
  simp [hs]

/-- Witness for validate_too_large_after_type_pass at the oversized
scenario of the spec. -/
theorem validate_too_large_after_type_pass_w :
    (strStartsWith "video/mp4" "video/" || extMatch "fight.mp4") = true ∧
    600000000 > MAX_FILE_SIZE ∧
    validate ⟨"fight.mp4", "video/mp4", 600000000⟩ = .Rejected .TooLarge :=
  ⟨by decide, by decide,
    validate_too_large_after_type_pass ⟨"fight.mp4", "video/mp4", 600000000⟩
      (by decide) (by decide)⟩

/-- Claim C3: a candidate that fails the type check (type does not start
with video/ and the name does not match an allowed extension) and also
exceeds the size limit is rejected with InvalidType and never with
TooLarge: the type check runs first and wins. -/
theorem invalid_type_precedes_too_large (f : File)
    (ht : strStartsWith f.type "video/" = false) (he : extMatch f.name = false)
    (hs : f.size > MAX_FILE_SIZE) :
    validate f = .Rejected .InvalidType ∧ validate f ≠ .Rejected .TooLarge := by
  have h : validate f = .Rejected .InvalidType := by
    unfold validate
    rw [ht, he]
    rfl
  refine ⟨h, ?_⟩
  rw [h]
  decide

/-- Witness for invalid_type_precedes_too_large at an oversized text
file. -/
theorem invalid_type_precedes_too_large_w :
    strStartsWith "text/plain" "video/" = false ∧ extMatch "notes.txt" = false ∧
    600000000 > MAX_FILE_SIZE ∧
    (validate ⟨"notes.txt", "text/plain", 600000000⟩ = .Rejected .InvalidType ∧
      validate ⟨"notes.txt", "text/plain", 600000000⟩ ≠ .Rejected .TooLarge) :=
  ⟨by decide, by decide, by decide,
    invalid_type_precedes_too_large ⟨"notes.txt", "text/plain", 600000000⟩
      (by decide) (by decide) (by decide)⟩

/-- Claim C4: a candidate whose declared type is a member of ALLOWED_TYPES
and whose size is at most MAX_FILE_SIZE is Accepted. -/
theorem allowed_type_within_limit_accepted (f : File)
    (ht : f.type ∈ ALLOWED_TYPES) (hs : f.size ≤ MAX_FILE_SIZE) :
    validate f = .Accepted := by
  apply validate_accepted_of_checks f _ hs
  have h : strStartsWith f.type "video/" = true := by
    simp only [ALLOWED_TYPES, List.mem_cons, List.not_mem_nil, or_false] at ht
    rcases ht with h | h | h <;> rw [h] <;> decide
  rw [h]
  rfl

/-- Witness for allowed_type_within_limit_accepted at an AVI candidate. -/
theorem allowed_type_within_limit_accepted_w :
    "video/x-msvideo" ∈ ALLOWED_TYPES ∧ 12345 ≤ MAX_FILE_SIZE ∧
    validate ⟨"a.avi", "video/x-msvideo", 12345⟩ = .Accepted :=
  ⟨by decide, by decide,
    allowed_type_within_limit_accepted ⟨"a.avi", "video/x-msvideo", 12345⟩
      (by decide) (by decide)⟩

/-- Claim C5: extension fallback is case-insensitive: a candidate with an
empty declared type whose lowercased name ends in one of the allowed
extensions, and whose size is within the limit, is Accepted. -/
theorem empty_type_ext_fallback_accepted (f : File) (ht : f.type = "")
    (he : strEndsWith (strToLower f.name) ".mp4" = true ∨
      strEndsWith (strToLower f.name) ".mov" = true ∨
      strEndsWith (strToLower f.name) ".avi" = true)
    (hs : f.size ≤ MAX_FILE_SIZE) :
    validate f = .Accepted := by
  apply validate_accepted_of_checks f _ hs
  have hm : extMatch f.name = true := by
    unfold extMatch
    rcases he with h | h | h <;> simp [h]
  rw [hm]
  simp

/-- Witness for empty_type_ext_fallback_accepted at the clip.MOV scenario
of C5. -/
theorem empty_type_ext_fallback_accepted_w :
    (File.mk "clip.MOV" "" 10000000).type = "" ∧
    strEndsWith (strToLower "clip.MOV") ".mov" = true ∧
    10000000 ≤ MAX_FILE_SIZE ∧
    validate ⟨"clip.MOV", "", 10000000⟩ = .Accepted :=
  ⟨rfl, by decide, by decide,
    empty_type_ext_fallback_accepted ⟨"clip.MOV", "", 10000000⟩
      rfl (Or.inr (Or.inl (by decide))) (by decide)⟩

/-- Claim C6: the accepted candidate fight.mp4 of size 50000000 is
described with display name File: fight.mp4 and size string
Size: 47.68 MB, the byte count divided by 1024 * 1024 fixed to two
decimals. -/
theorem fight_mp4_description :
    validate ⟨"fight.mp4", "video/mp4", 50000000⟩ = .Accepted ∧
    describe ⟨"fight.mp4", "video/mp4", 50000000⟩ =
      ⟨"File: fight.mp4", "Size: 47.68 MB"⟩ := by
  decide

/-- Claim C7: the source never calls URL.revokeObjectURL, so after file A
is staged its object URL token 0 is allocated, after file B replaces it
both tokens 0 and 1 are still allocated, and even the change button leaves
both allocated: the resource backing A is released zero times, not exactly
once. -/
theorem staged_resource_never_released :
    (handleFile initialState ⟨"a.mp4", "video/mp4", 1000⟩).allocatedUrls = [0] ∧
    (handleFile (handleFile initialState ⟨"a.mp4", "video/mp4", 1000⟩)
      ⟨"b.mp4", "video/mp4", 2000⟩).allocatedUrls = [0, 1] ∧
    (changeBtnClick (handleFile (handleFile initialState ⟨"a.mp4", "video/mp4", 1000⟩)
      ⟨"b.mp4", "video/mp4", 2000⟩)).allocatedUrls = [0, 1] := by
  decide

/-- Claim C8: describing the same staged file twice is idempotent on the
display state: repeating the two textContent assignments with the same
file leaves the state produced by the first pass unchanged. -/
theorem setDisplay_idempotent (st : SessionState) (f : File) :
    setDisplay (setDisplay st f) f = setDisplay st f := rfl

/-- Claim C9: a drop event or an input change event offering zero files is
silently ignored: neither listener changes any part of the session state,
and in particular no alert is added. -/
theorem empty_selection_ignored (st : SessionState) :
    dropListener st [] = st ∧ changeListener st [] = st :=
  ⟨rfl, rfl⟩

/-- Claim C10: rejection is atomic: when validate rejects a candidate for
either reason, handleFile allocates no object URL, does not bump the URL
counter, and leaves the player source, both display strings, and both
visibility flags exactly as they were. -/
theorem rejection_leaves_session_unchanged (st : SessionState) (f : File)
    (r : RejectReason) (h : validate f = .Rejected r) :
    (handleFile st f).nextUrl = st.nextUrl ∧
    (handleFile st f).allocatedUrls = st.allocatedUrls ∧
    (handleFile st f).playerSrc = st.playerSrc ∧
    (handleFile st f).fileNameText = st.fileNameText ∧
    (handleFile st f).fileSizeText = st.fileSizeText ∧
    (handleFile st f).uploadHidden = st.uploadHidden ∧
    (handleFile st f).previewHidden = st.previewHidden := by
  unfold handleFile
  unfold validate at h
  by_cases h1 : (!(strStartsWith f.type "video/") && !(extMatch f.name)) = true
  · rw [if_pos h1]
    exact ⟨rfl, rfl, rfl, rfl, rfl, rfl, rfl⟩
  · rw [if_neg h1]
    rw [if_neg h1] at h
    by_cases h2 : f.size > MAX_FILE_SIZE
    · rw [if_pos h2]
      exact ⟨rfl, rfl, rfl, rfl, rfl, rfl, rfl⟩
    · rw [if_neg h2] at h
      exact ValidationResult.noConfusion h

/-- Witness for rejection_leaves_session_unchanged at a rejected text file
offered to the pristine session. -/
theorem rejection_leaves_session_unchanged_w :
    validate ⟨"notes.txt", "text/plain", 5⟩ = .Rejected .InvalidType ∧
    ((handleFile initialState ⟨"notes.txt", "text/plain", 5⟩).nextUrl = initialState.nextUrl ∧
     (handleFile initialState ⟨"notes.txt", "text/plain", 5⟩).allocatedUrls = initialState.allocatedUrls ∧
     (handleFile initialState ⟨"notes.txt", "text/plain", 5⟩).playerSrc = initialState.playerSrc ∧
     (handleFile initialState ⟨"notes.txt", "text/plain", 5⟩).fileNameText = initialState.fileNameText ∧
     (handleFile initialState ⟨"notes.txt", "text/plain", 5⟩).fileSizeText = initialState.fileSizeText ∧
     (handleFile initialState ⟨"notes.txt", "text/plain", 5⟩).uploadHidden = initialState.uploadHidden ∧
     (handleFile initialState ⟨"notes.txt", "text/plain", 5⟩).previewHidden = initialState.previewHidden) :=
  ⟨by decide,
    rejection_leaves_session_unchanged initialState ⟨"notes.txt", "text/plain", 5⟩
      .InvalidType (by decide)⟩
